import Mathlib

/-!
A shallow embedding of `src/Vector_Transmission.cc`, FRED's vector-borne
transmission model, together with proofs about its behaviour.

Modelling conventions:
* C++ `double` arithmetic is modelled over `ℝ` (so `pow` becomes `Real.rpow`
  and real division by zero takes Lean's junk value `0`; every place where
  this convention matters is noted at the definition it affects).
* The external collaborators -- `Place`, `Person`, the disease registry
  `Global::Diseases`, the vector-parameter service `Global::Vectors` and the
  random source -- are declared in headers that are not part of this
  repository, so their state is modelled from the spec as explicit records;
  mutating collaborator calls become field updates, and calls whose effect
  lives outside the repository are recorded in ghost logs/counters
  (`reset_calls`, `expose_calls`, `visited_log`, `infect_vectors_calls`).
* The single uniform random draw consumed by `infect_hosts` (line 142) is
  passed in as the parameter `u`.
-/

namespace VectorTransmission

/-- C++ converts `double` to `int` by truncation toward zero (used at
lines 100 and 106 of `Vector_Transmission.cc`). -/
noncomputable def truncToInt (x : ℝ) : ℤ :=
  if 0 ≤ x then ⌊x⌋ else ⌈x⌉

/-- The Chao–Longini per-bite infection-probability formula
`1 - (1 - efficiency)^x`, shared by line 97 (host-to-vector, with
`x = bite_rate * total_infectious_hosts / total_hosts`) and line 136
(vector-to-host, with `x = bite_rate * infectious_vectors / total_hosts`).
The C++ `pow` on doubles is modelled by `Real.rpow`. -/
noncomputable def probFormula (efficiency x : ℝ) : ℝ :=
  1 - (1 - efficiency) ^ x

/-- Process-wide vector parameters served by `Global::Vectors`
(`Vector_Layer.h` is not part of this repository; fields are the three
getters the source calls). -/
structure VectorParams where
  infection_efficiency : ℝ
  transmission_efficiency : ℝ
  bite_rate : ℝ

/-- Process-wide environment: the disease registry
(`Global::Diseases.get_number_of_diseases()` and
`get_disease(id)->get_transmissibility()`), the `DISEASE_TYPES` constant
used by the cross-immunity loop at line 174 (defined outside this
repository; the spec calls it the set of tracked strains), and the vector
parameters. -/
structure Env where
  diseases : ℕ
  disease_types : ℕ
  transmissibility : ℕ → ℝ
  params : VectorParams

/-- Modelled from the spec: a host (`Person.cc` is not part of this
repository) holds a per-strain susceptibility status, a presence predicate
for the day, and identity attributes used only for diagnostics.
`present` is the value of `is_present(day, place)` observed after
`update_schedule(day)` (line 162-163); `exposures` records the
`become_exposed` calls made on the host. -/
structure Person where
  pid : ℕ
  present : Bool
  susceptible : ℕ → Bool
  exposures : List ℕ

/-- Default person used with `List.getD` when observing an enrollee slot:
absent, susceptible to everything, never exposed (reading an out-of-range
slot observes nothing). -/
def noPerson : Person :=
  { pid := 0, present := false, susceptible := fun _ => true, exposures := [] }

/-- Modelled from the spec: `become_exposed(strain, NULL, place, day)`
(line 171) marks the host exposed to the strain; per the spec's data model a
host's status per strain is "susceptible / exposed-or-immune", so exposure
clears susceptibility to that strain. -/
def become_exposed (p : Person) (disease_id : ℕ) : Person :=
  { p with
    exposures := p.exposures ++ [disease_id]
    susceptible := fun d => if d = disease_id then false else p.susceptible d }

/-- Modelled from the spec: `become_unsusceptible(disease)` (line 177)
clears the host's susceptibility for that strain. -/
def become_unsusceptible (p : Person) (d : ℕ) : Person :=
  { p with susceptible := fun x => if x = d then false else p.susceptible x }

/-- Lines 174–179: `for(int d = 0; d < DISEASE_TYPES; d++) if(d != disease_id)
become_unsusceptible(d)`, as a recursion on the loop bound `dt`. -/
def cross_immunize (disease_id : ℕ) (p : Person) : ℕ → Person
  | 0 => p
  | d + 1 =>
      let q := cross_immunize disease_id p d
      if d = disease_id then q else become_unsusceptible q d

/-- The location state visible to this file.  Query methods of `Place`
(whose implementation is not part of this repository) are modelled as
fields holding the values they return on the day of the call; mutating
methods update fields or append to ghost logs:
`reset_calls d` counts the `reset_place_state(d)` calls,
`expose_calls` logs the `expose_vectors(strain, count)` calls in order,
`visited_log` logs the enrollee indices the host-infection loop visits, and
`infect_vectors_calls` counts entries into `infect_vectors`. -/
structure Place where
  is_open : ℕ → Bool
  should_be_open : ℕ → ℕ → Bool
  susceptible_vectors : ℕ
  infectious_vectors : ℕ → ℕ
  infectious_people : ℕ → ℕ
  size : ℕ
  enrollees : List Person
  vectors_infected_today : Bool
  expose_calls : List (ℕ × ℤ)
  infectious_days : List ℕ
  visited_log : List ℕ
  reset_calls : ℕ → ℕ
  infect_vectors_calls : ℕ

/-- Modelled from the spec: `reset_place_state(strain)` clears per-day
transient counters held inside the location (outside this repository); the
ghost counter records that the call happened. -/
def reset_place_state (pl : Place) (disease_id : ℕ) : Place :=
  { pl with
    reset_calls := fun d =>
      if d = disease_id then pl.reset_calls d + 1 else pl.reset_calls d }

/-- Modelled from the spec: `record_infectious_days(day)` (line 50) extends
the location's first/last-infectious-day tracking. -/
def record_infectious_days (pl : Place) (day : ℕ) : Place :=
  { pl with infectious_days := pl.infectious_days ++ [day] }

/-- Lines 76–82: per-strain infectious-host counts summed over the disease
registry. -/
def total_infectious_hosts (env : Env) (pl : Place) : ℕ :=
  ∑ d in Finset.range env.diseases, pl.infectious_people d

/-- Line 97: each vector's probability of infection.  The C++ expression
divides by `total_hosts = place->get_size()`; on the reachable path
`total_infectious_hosts > 0` so a sane place has `size > 0`, and the Lean
junk value `x / 0 = 0` is never hit with meaningful inputs. -/
noncomputable def vt_prob_infection (env : Env) (pl : Place) : ℝ :=
  probFormula env.params.infection_efficiency
    ((env.params.bite_rate * (total_infectious_hosts env pl : ℝ)) / (pl.size : ℝ))

/-- Line 100: `int total_infections = prob_infection * susceptible_vectors;`
(double-to-int truncation). -/
noncomputable def total_infections (env : Env) (pl : Place) : ℤ :=
  truncToInt (vt_prob_infection env pl * (pl.susceptible_vectors : ℝ))

/-- Line 106: `int exposed_vectors = total_infections *
((double)infectious_hosts[d] / (double)total_infectious_hosts);`
(double-to-int truncation). -/
noncomputable def exposed_vectors (env : Env) (pl : Place) (disease_id : ℕ) : ℤ :=
  truncToInt ((total_infections env pl : ℝ) *
    ((pl.infectious_people disease_id : ℝ) / (total_infectious_hosts env pl : ℝ)))

/-- Lines 64–112, `Vector_Transmission::infect_vectors`.  The ghost entry
counter is bumped unconditionally (the function was invoked); the two
guards (no susceptible vectors, line 68; no infectious hosts, line 85)
return before `expose_vectors` or `mark_vectors_as_infected_today` are
reached. -/
noncomputable def infect_vectors (env : Env) (day : ℕ) (pl0 : Place) : Place :=
  let pl := { pl0 with infect_vectors_calls := pl0.infect_vectors_calls + 1 }
  if pl0.susceptible_vectors = 0 then pl
  else if total_infectious_hosts env pl0 = 0 then pl
  else
    { pl with
      expose_calls := pl0.expose_calls ++
        (List.range env.diseases).map (fun d => (d, exposed_vectors env pl0 d))
      vectors_infected_today := true }

/-- Line 136: each host's probability of infection (`total_hosts` here is
`susceptibles->size()`, the enrollee count, nonzero on the reachable path
by the guard at line 118). -/
noncomputable def host_prob_infection (env : Env) (disease_id : ℕ) (pl : Place) : ℝ :=
  probFormula env.params.transmission_efficiency
    (env.params.bite_rate * (pl.infectious_vectors disease_id : ℝ) / (pl.enrollees.length : ℝ))

/-- Line 139: `double expected_infections = total_hosts * prob_infection;`. -/
noncomputable def expected_infections (env : Env) (disease_id : ℕ) (pl : Place) : ℝ :=
  (pl.enrollees.length : ℝ) * host_prob_infection env disease_id pl

/-- Lines 140–144: stochastic rounding of the expected count.
`int max_exposed_hosts = floor(expected_infections);` is exact
(`floor` on a double then an exact int conversion), `remainder` is the
fractional part, and the single uniform draw `u` (line 142) decides the
increment. -/
noncomputable def max_exposed_hosts (env : Env) (disease_id : ℕ) (pl : Place) (u : ℝ) : ℤ :=
  let base : ℤ := ⌊expected_infections env disease_id pl⌋
  let remainder : ℝ := expected_infections env disease_id pl - (base : ℝ)
  if u < remainder then base + 1 else base

/-- Loop body of lines 160–183 for one visited index
`idx = shuffle_index[j]`: fetch the enrollee, re-check presence
(line 163; `update_schedule` only refreshes the schedule that `present`
already reflects), and if the host is susceptible to the strain expose it
(line 171) and apply the cross-immunity loop (lines 174–179). -/
def process_host (dt disease_id : ℕ) (persons : List Person) (idx : ℕ) : List Person :=
  match persons[idx]? with
  | none => persons
  | some pers =>
      if pers.present = false then persons
      else if pers.susceptible disease_id then
        persons.set idx (cross_immunize disease_id (become_exposed pers disease_id) dt)
      else persons

/-- The attempt loop of lines 160–183, iterated over the list of visited
indices. -/
def infect_loop (dt disease_id : ℕ) : List Person → List ℕ → List Person
  | persons, [] => persons
  | persons, idx :: rest =>
      infect_loop dt disease_id (process_host dt disease_id persons idx) rest

/-- Lines 114–184, `Vector_Transmission::infect_hosts`.

NOTE on lines 150–155: the code runs `shuffle_index.reserve(total_hosts)`
and then writes `shuffle_index[i] = i` through `operator[]`.  `reserve`
allocates capacity but leaves `size() == 0`, so the writes are out of
bounds (undefined behaviour that, under the usual `std::vector`
implementation, lands in the reserved buffer) and `FYShuffle`, applied to a
vector of size zero, performs no swaps and consumes no random draws.  The
subsequent reads `shuffle_index[j]` (line 161) return the values written at
line 153, i.e. `j` itself.  We model this actual behaviour: the visit
order is the identity sequence `List.range total_hosts`, unshuffled, and no
random draws are consumed beyond the rounding draw `u`. -/
noncomputable def infect_hosts (env : Env) (day disease_id : ℕ) (pl : Place) (u : ℝ) : Place :=
  if pl.enrollees.length = 0 then pl
  else if pl.infectious_vectors disease_id = 0 then pl
  else if env.params.transmission_efficiency = 0 then pl
  else
    let n := (max_exposed_hosts env disease_id pl u).toNat
    let shuffle_index := List.range pl.enrollees.length
    let visit := (List.range n).map (fun j => shuffle_index.getD j 0)
    { pl with
      enrollees := infect_loop env.disease_types disease_id pl.enrollees visit
      visited_log := pl.visited_log ++ visit }

/-- Lines 39–61, `Vector_Transmission::spread_infection`. -/
noncomputable def spread_infection (env : Env) (day disease_id : ℕ) (pl : Place) (u : ℝ) :
    Place :=
  if env.transmissibility disease_id = 0 ∨ pl.is_open day = false ∨
      pl.should_be_open day disease_id = false then
    reset_place_state pl disease_id
  else
    let pl1 := record_infectious_days pl day
    let pl2 := if pl1.vectors_infected_today = false then infect_vectors env day pl1 else pl1
    let pl3 := infect_hosts env day disease_id pl2 u
    reset_place_state pl3 disease_id

/-! ### Concrete test fixtures

A small concrete environment and location used to evaluate the model at
explicit inputs: two tracked strains, unit transmissibility, unit
efficiencies and bite rate, five susceptible vectors, two infectious
vectors per strain, two infectious hosts of strain 0 and none of strain 1,
and two enrolled hosts that are present and susceptible to everything. -/

/-- A present host with id `i`, susceptible to every strain, never exposed. -/
def personW (i : ℕ) : Person :=
  { pid := i, present := true, susceptible := fun _ => true, exposures := [] }

def paramsW : VectorParams :=
  { infection_efficiency := 1, transmission_efficiency := 1, bite_rate := 1 }

def envW : Env :=
  { diseases := 2, disease_types := 2, transmissibility := fun _ => 1, params := paramsW }

/-- Variant of `envW` with transmissibility 0 for every strain. -/
def envW0 : Env := { envW with transmissibility := fun _ => 0 }

def plW : Place :=
  { is_open := fun _ => true
    should_be_open := fun _ _ => true
    susceptible_vectors := 5
    infectious_vectors := fun _ => 2
    infectious_people := fun d => if d = 0 then 2 else 0
    size := 2
    enrollees := [personW 0, personW 1]
    vectors_infected_today := false
    expose_calls := []
    infectious_days := []
    visited_log := []
    reset_calls := fun _ => 0
    infect_vectors_calls := 0 }

/-- Variant of `plW` with no susceptible vectors. -/
def plW0 : Place := { plW with susceptible_vectors := 0 }

/-! ### Basic facts about the numeric helpers -/

lemma probFormula_nonneg {eff x : ℝ} (h0 : 0 ≤ eff) (h1 : eff ≤ 1) (hx : 0 ≤ x) :
    0 ≤ probFormula eff x := by
  have hb0 : (0 : ℝ) ≤ 1 - eff := by linarith
  have hb1 : (1 : ℝ) - eff ≤ 1 := by linarith
  have := Real.rpow_le_one hb0 hb1 hx
  unfold probFormula
  linarith

lemma probFormula_le_one {eff : ℝ} (x : ℝ) (h1 : eff ≤ 1) : probFormula eff x ≤ 1 := by
  have := Real.rpow_nonneg (by linarith : (0 : ℝ) ≤ 1 - eff) x
  unfold probFormula
  linarith

lemma truncToInt_of_nonneg {x : ℝ} (h : 0 ≤ x) : truncToInt x = ⌊x⌋ := if_pos h

lemma truncToInt_nonneg {x : ℝ} (h : 0 ≤ x) : 0 ≤ truncToInt x := by
  rw [truncToInt_of_nonneg h]
  exact Int.floor_nonneg.mpr h

/-! ### Shape lemmas: each routine, path by path -/

lemma infect_vectors_guard (env : Env) (day : ℕ) (pl0 : Place)
    (h : pl0.susceptible_vectors = 0 ∨ total_infectious_hosts env pl0 = 0) :
    infect_vectors env day pl0 =
      { pl0 with infect_vectors_calls := pl0.infect_vectors_calls + 1 } := by
  unfold infect_vectors
  rcases h with h | h
  · rw [if_pos h]
  · by_cases h1 : pl0.susceptible_vectors = 0
    · rw [if_pos h1]
    · rw [if_neg h1, if_pos h]

lemma infect_vectors_normal (env : Env) (day : ℕ) (pl0 : Place)
    (h1 : pl0.susceptible_vectors ≠ 0) (h2 : total_infectious_hosts env pl0 ≠ 0) :
    infect_vectors env day pl0 =
      { pl0 with
        infect_vectors_calls := pl0.infect_vectors_calls + 1
        expose_calls := pl0.expose_calls ++
          (List.range env.diseases).map (fun d => (d, exposed_vectors env pl0 d))
        vectors_infected_today := true } := by
  unfold infect_vectors
  rw [if_neg h1, if_neg h2]

lemma infect_vectors_cases (env : Env) (day : ℕ) (pl0 : Place) :
    infect_vectors env day pl0 =
        { pl0 with infect_vectors_calls := pl0.infect_vectors_calls + 1 } ∨
    infect_vectors env day pl0 =
      { pl0 with
        infect_vectors_calls := pl0.infect_vectors_calls + 1
        expose_calls := pl0.expose_calls ++
          (List.range env.diseases).map (fun d => (d, exposed_vectors env pl0 d))
        vectors_infected_today := true } := by
  by_cases h1 : pl0.susceptible_vectors = 0
  · exact Or.inl (infect_vectors_guard env day pl0 (Or.inl h1))
  by_cases h2 : total_infectious_hosts env pl0 = 0
  · exact Or.inl (infect_vectors_guard env day pl0 (Or.inr h2))
  · exact Or.inr (infect_vectors_normal env day pl0 h1 h2)

lemma infect_vectors_reset_calls (env : Env) (day : ℕ) (pl0 : Place) :
    (infect_vectors env day pl0).reset_calls = pl0.reset_calls := by
  rcases infect_vectors_cases env day pl0 with h | h <;> rw [h]

lemma infect_hosts_cases (env : Env) (day disease_id : ℕ) (pl : Place) (u : ℝ) :
    infect_hosts env day disease_id pl u = pl ∨
    ∃ visit, infect_hosts env day disease_id pl u =
      { pl with
        enrollees := infect_loop env.disease_types disease_id pl.enrollees visit
        visited_log := pl.visited_log ++ visit } := by
  unfold infect_hosts
  split
  · exact Or.inl rfl
  split
  · exact Or.inl rfl
  split
  · exact Or.inl rfl
  · exact Or.inr ⟨_, rfl⟩

lemma infect_hosts_normal (env : Env) (day disease_id : ℕ) (pl : Place) (u : ℝ)
    (h1 : pl.enrollees.length ≠ 0) (h2 : pl.infectious_vectors disease_id ≠ 0)
    (h3 : env.params.transmission_efficiency ≠ 0) :
    infect_hosts env day disease_id pl u =
      { pl with
        enrollees := infect_loop env.disease_types disease_id pl.enrollees
          ((List.range (max_exposed_hosts env disease_id pl u).toNat).map
            (fun j => (List.range pl.enrollees.length).getD j 0))
        visited_log := pl.visited_log ++
          (List.range (max_exposed_hosts env disease_id pl u).toNat).map
            (fun j => (List.range pl.enrollees.length).getD j 0) } := by
  unfold infect_hosts
  rw [if_neg h1, if_neg h2, if_neg h3]

lemma infect_hosts_reset_calls (env : Env) (day disease_id : ℕ) (pl : Place) (u : ℝ) :
    (infect_hosts env day disease_id pl u).reset_calls = pl.reset_calls := by
  rcases infect_hosts_cases env day disease_id pl u with h | ⟨v, h⟩ <;> rw [h]

lemma reset_place_state_self (pl : Place) (disease_id : ℕ) :
    (reset_place_state pl disease_id).reset_calls disease_id =
      pl.reset_calls disease_id + 1 := by
  simp [reset_place_state]

lemma spread_infection_on_guard (env : Env) (day disease_id : ℕ) (pl : Place) (u : ℝ)
    (h : env.transmissibility disease_id = 0 ∨ pl.is_open day = false ∨
      pl.should_be_open day disease_id = false) :
    spread_infection env day disease_id pl u = reset_place_state pl disease_id := by
  unfold spread_infection
  rw [if_pos h]

lemma spread_infection_on_normal (env : Env) (day disease_id : ℕ) (pl : Place) (u : ℝ)
    (h : ¬(env.transmissibility disease_id = 0 ∨ pl.is_open day = false ∨
      pl.should_be_open day disease_id = false)) :
    spread_infection env day disease_id pl u =
      reset_place_state
        (infect_hosts env day disease_id
          (if (record_infectious_days pl day).vectors_infected_today = false then
            infect_vectors env day (record_infectious_days pl day)
          else record_infectious_days pl day) u)
        disease_id := by
  unfold spread_infection
  rw [if_neg h]

lemma infect_hosts_vectors_infected_today (env : Env) (day disease_id : ℕ) (pl : Place)
    (u : ℝ) :
    (infect_hosts env day disease_id pl u).vectors_infected_today =
      pl.vectors_infected_today := by
  rcases infect_hosts_cases env day disease_id pl u with h | ⟨v, h⟩ <;> rw [h]

lemma infect_hosts_infect_vectors_calls (env : Env) (day disease_id : ℕ) (pl : Place)
    (u : ℝ) :
    (infect_hosts env day disease_id pl u).infect_vectors_calls =
      pl.infect_vectors_calls := by
  rcases infect_hosts_cases env day disease_id pl u with h | ⟨v, h⟩ <;> rw [h]

lemma infect_hosts_is_open (env : Env) (day disease_id : ℕ) (pl : Place) (u : ℝ) :
    (infect_hosts env day disease_id pl u).is_open = pl.is_open := by
  rcases infect_hosts_cases env day disease_id pl u with h | ⟨v, h⟩ <;> rw [h]

lemma infect_hosts_should_be_open (env : Env) (day disease_id : ℕ) (pl : Place) (u : ℝ) :
    (infect_hosts env day disease_id pl u).should_be_open = pl.should_be_open := by
  rcases infect_hosts_cases env day disease_id pl u with h | ⟨v, h⟩ <;> rw [h]

lemma infect_hosts_susceptible_vectors (env : Env) (day disease_id : ℕ) (pl : Place)
    (u : ℝ) :
    (infect_hosts env day disease_id pl u).susceptible_vectors =
      pl.susceptible_vectors := by
  rcases infect_hosts_cases env day disease_id pl u with h | ⟨v, h⟩ <;> rw [h]

lemma infect_hosts_infectious_people (env : Env) (day disease_id : ℕ) (pl : Place)
    (u : ℝ) :
    (infect_hosts env day disease_id pl u).infectious_people = pl.infectious_people := by
  rcases infect_hosts_cases env day disease_id pl u with h | ⟨v, h⟩ <;> rw [h]

lemma infect_vectors_calls_succ (env : Env) (day : ℕ) (pl0 : Place) :
    (infect_vectors env day pl0).infect_vectors_calls =
      pl0.infect_vectors_calls + 1 := by
  rcases infect_vectors_cases env day pl0 with h | h <;> rw [h]

lemma total_infectious_hosts_congr (env : Env) {pl pl' : Place}
    (h : pl'.infectious_people = pl.infectious_people) :
    total_infectious_hosts env pl' = total_infectious_hosts env pl := by
  unfold total_infectious_hosts
  rw [h]

/-- Shape of a `spread_infection` call that passes the coordinator guards,
finds the shared flag unset, and whose `infect_vectors` run exits through
one of its two guards. -/
lemma spread_infection_vector_guard_shape (env : Env) (day disease_id : ℕ) (pl : Place)
    (u : ℝ)
    (hg : ¬(env.transmissibility disease_id = 0 ∨ pl.is_open day = false ∨
      pl.should_be_open day disease_id = false))
    (hflag : pl.vectors_infected_today = false)
    (hguard : pl.susceptible_vectors = 0 ∨ total_infectious_hosts env pl = 0) :
    spread_infection env day disease_id pl u =
      reset_place_state
        (infect_hosts env day disease_id
          { record_infectious_days pl day with
            infect_vectors_calls := pl.infect_vectors_calls + 1 } u)
        disease_id := by
  rw [spread_infection_on_normal env day disease_id pl u hg]
  rw [if_pos (show (record_infectious_days pl day).vectors_infected_today = false from hflag)]
  rw [infect_vectors_guard env day (record_infectious_days pl day) hguard]
  rfl

/-! ### Claim theorems -/

/-- C1: every call to `spread_infection(day, strain, location)` performs the
location's per-day state reset for that strain exactly once, on every exit
path: once when any guard short-circuits, and once at the end of the normal
path. -/
theorem C1_reset_exactly_once (env : Env) (day disease_id : ℕ) (pl : Place) (u : ℝ) :
    (spread_infection env day disease_id pl u).reset_calls disease_id =
      pl.reset_calls disease_id + 1 := by
  by_cases h : env.transmissibility disease_id = 0 ∨ pl.is_open day = false ∨
      pl.should_be_open day disease_id = false
  · rw [spread_infection_on_guard env day disease_id pl u h, reset_place_state_self]
  · rw [spread_infection_on_normal env day disease_id pl u h, reset_place_state_self,
      infect_hosts_reset_calls]
    split
    · rw [infect_vectors_reset_calls]
      rfl
    · rfl

/-- C3: the target infection count of `infect_hosts` is the stochastic
rounding of the expected value `e = total_hosts * p`: `floor(e) + 1` when
the single uniform draw `u` is below the fractional part `e - floor(e)`,
and `floor(e)` otherwise. -/
theorem C3_stochastic_rounding (env : Env) (disease_id : ℕ) (pl : Place) (u : ℝ) :
    max_exposed_hosts env disease_id pl u =
      if u < (pl.enrollees.length : ℝ) * host_prob_infection env disease_id pl -
          (⌊(pl.enrollees.length : ℝ) * host_prob_infection env disease_id pl⌋ : ℝ) then
        ⌊(pl.enrollees.length : ℝ) * host_prob_infection env disease_id pl⌋ + 1
      else ⌊(pl.enrollees.length : ℝ) * host_prob_infection env disease_id pl⌋ := by
  unfold max_exposed_hosts expected_infections
  rfl

/-- C7: the per-bite infection-probability formula
`p = 1 - (1 - efficiency)^(bite_rate * r)` used by both stages evaluates to
a value in `[0,1]` for every non-negative `bite_rate`, every efficiency in
`[0,1]`, and every non-negative host/vector count ratio `r`. -/
theorem C7_prob_in_unit_interval (efficiency bite r : ℝ)
    (hb : 0 ≤ bite) (h0 : 0 ≤ efficiency) (h1 : efficiency ≤ 1) (hr : 0 ≤ r) :
    0 ≤ probFormula efficiency (bite * r) ∧ probFormula efficiency (bite * r) ≤ 1 :=
  ⟨probFormula_nonneg h0 h1 (mul_nonneg hb hr), probFormula_le_one (bite * r) h1⟩

lemma vt_prob_nonneg (env : Env) (pl : Place)
    (h0 : 0 ≤ env.params.infection_efficiency) (h1 : env.params.infection_efficiency ≤ 1)
    (hb : 0 ≤ env.params.bite_rate) : 0 ≤ vt_prob_infection env pl :=
  probFormula_nonneg h0 h1
    (div_nonneg (mul_nonneg hb (Nat.cast_nonneg _)) (Nat.cast_nonneg _))

/-- C6: the sum over strains of newly-exposed vector counts is at most the
truncated total new-infection count, and that total is at most the
susceptible vector count, whenever the infection efficiency lies in `[0,1]`
and the bite rate is non-negative (host/vector counts are `ℕ`, hence
non-negative by construction). -/
theorem C6_vector_counts_bounded (env : Env) (pl : Place)
    (h0 : 0 ≤ env.params.infection_efficiency) (h1 : env.params.infection_efficiency ≤ 1)
    (hb : 0 ≤ env.params.bite_rate) :
    (∑ d in Finset.range env.diseases, exposed_vectors env pl d) ≤
        total_infections env pl ∧
      total_infections env pl ≤ (pl.susceptible_vectors : ℤ) := by
  have hp0 : 0 ≤ vt_prob_infection env pl := vt_prob_nonneg env pl h0 h1 hb
  have hp1 : vt_prob_infection env pl ≤ 1 := probFormula_le_one _ h1
  have hps : 0 ≤ vt_prob_infection env pl * (pl.susceptible_vectors : ℝ) :=
    mul_nonneg hp0 (Nat.cast_nonneg _)
  have hT0 : 0 ≤ total_infections env pl := truncToInt_nonneg hps
  constructor
  · by_cases hH : total_infectious_hosts env pl = 0
    · have hzero : ∀ d ∈ Finset.range env.diseases, exposed_vectors env pl d = 0 := by
        intro d _
        unfold exposed_vectors
        rw [hH]
        norm_num [truncToInt]
      rw [Finset.sum_congr rfl hzero, Finset.sum_const_zero]
      exact hT0
    · have hHpos : (0 : ℝ) < (total_infectious_hosts env pl : ℝ) := by
        exact_mod_cast Nat.pos_of_ne_zero hH
      have hterm : ∀ d, exposed_vectors env pl d =
          ⌊(total_infections env pl : ℝ) *
            ((pl.infectious_people d : ℝ) / (total_infectious_hosts env pl : ℝ))⌋ :=
        fun d => truncToInt_of_nonneg (mul_nonneg (by exact_mod_cast hT0)
          (div_nonneg (Nat.cast_nonneg _) hHpos.le))
      have key : ((∑ d in Finset.range env.diseases, exposed_vectors env pl d : ℤ) : ℝ) ≤
          ((total_infections env pl : ℤ) : ℝ) := by
        push_cast
        calc ∑ d in Finset.range env.diseases, ((exposed_vectors env pl d : ℤ) : ℝ)
            ≤ ∑ d in Finset.range env.diseases,
                (total_infections env pl : ℝ) *
                  ((pl.infectious_people d : ℝ) / (total_infectious_hosts env pl : ℝ)) := by
              apply Finset.sum_le_sum
              intro d _
              rw [hterm d]
              exact Int.floor_le _
          _ = (total_infections env pl : ℝ) := by
              rw [← Finset.mul_sum, ← Finset.sum_div]
              have hsum : (∑ d in Finset.range env.diseases, (pl.infectious_people d : ℝ))
                  = (total_infectious_hosts env pl : ℝ) := by
                unfold total_infectious_hosts
                push_cast
                rfl
              rw [hsum, div_self (ne_of_gt hHpos), mul_one]
      exact_mod_cast key
  · have hTfloor : total_infections env pl =
        ⌊vt_prob_infection env pl * (pl.susceptible_vectors : ℝ)⌋ :=
      truncToInt_of_nonneg hps
    rw [hTfloor]
    have hle : vt_prob_infection env pl * (pl.susceptible_vectors : ℝ) ≤
        (((pl.susceptible_vectors : ℤ) : ℝ)) := by
      push_cast
      exact mul_le_of_le_one_left (Nat.cast_nonneg _) hp1
    calc ⌊vt_prob_infection env pl * (pl.susceptible_vectors : ℝ)⌋
        ≤ ⌊(((pl.susceptible_vectors : ℤ) : ℝ))⌋ := Int.floor_le_floor hle
      _ = (pl.susceptible_vectors : ℤ) := Int.floor_intCast _

/-- Witness for C6 at the concrete fixture. -/
theorem C6_vector_counts_bounded_witness :
    (0 ≤ envW.params.infection_efficiency) ∧
      (envW.params.infection_efficiency ≤ 1) ∧
      (0 ≤ envW.params.bite_rate) ∧
      ((∑ d in Finset.range envW.diseases, exposed_vectors envW plW d) ≤
          total_infections envW plW ∧
        total_infections envW plW ≤ (plW.susceptible_vectors : ℤ)) :=
  ⟨zero_le_one, le_refl 1, zero_le_one,
    C6_vector_counts_bounded envW plW zero_le_one (le_refl 1) zero_le_one⟩

/-- C5 as amended: on the normal path of `infect_vectors`, each strain's
newly-exposed vector count equals
`floor(total_new * infectious_hosts[strain] / total_infectious_hosts)`, and
the location's vector-exposure mutator is invoked exactly once per tracked
strain -- including the strains whose allocation is zero (the loop at
lines 105–109 calls `expose_vectors` unconditionally). -/
theorem C5_allocation_floor_per_strain (env : Env) (day : ℕ) (pl : Place)
    (h0 : 0 ≤ env.params.infection_efficiency) (h1 : env.params.infection_efficiency ≤ 1)
    (hb : 0 ≤ env.params.bite_rate)
    (hs : pl.susceptible_vectors ≠ 0) (hH : total_infectious_hosts env pl ≠ 0) :
    (infect_vectors env day pl).expose_calls =
      pl.expose_calls ++ (List.range env.diseases).map
        (fun d => (d, ⌊(total_infections env pl : ℝ) *
          ((pl.infectious_people d : ℝ) / (total_infectious_hosts env pl : ℝ))⌋)) := by
  have hp0 : 0 ≤ vt_prob_infection env pl := vt_prob_nonneg env pl h0 h1 hb
  have hT0 : 0 ≤ total_infections env pl :=
    truncToInt_nonneg (mul_nonneg hp0 (Nat.cast_nonneg _))
  rw [infect_vectors_normal env day pl hs hH]
  show pl.expose_calls ++ _ = pl.expose_calls ++ _
  congr 1
  apply List.map_congr_left
  intro d _
  have hd : exposed_vectors env pl d =
      ⌊(total_infections env pl : ℝ) *
        ((pl.infectious_people d : ℝ) / (total_infectious_hosts env pl : ℝ))⌋ :=
    truncToInt_of_nonneg (mul_nonneg (by exact_mod_cast hT0)
      (div_nonneg (Nat.cast_nonneg _) (Nat.cast_nonneg _)))
  rw [hd]

/-- Witness for the amended C5 at the concrete fixture. -/
theorem C5_allocation_floor_per_strain_witness :
    (0 ≤ envW.params.infection_efficiency) ∧
      (envW.params.infection_efficiency ≤ 1) ∧
      (0 ≤ envW.params.bite_rate) ∧
      plW.susceptible_vectors ≠ 0 ∧ total_infectious_hosts envW plW ≠ 0 ∧
      (infect_vectors envW 0 plW).expose_calls =
        plW.expose_calls ++ (List.range envW.diseases).map
          (fun d => (d, ⌊(total_infections envW plW : ℝ) *
            ((plW.infectious_people d : ℝ) / (total_infectious_hosts envW plW : ℝ))⌋)) :=
  ⟨zero_le_one, le_refl 1, zero_le_one, by decide, by decide,
    C5_allocation_floor_per_strain envW 0 plW zero_le_one (le_refl 1) zero_le_one
      (by decide) (by decide)⟩

/-- Counterexample to C5 as stated: at the concrete fixture, strain 1 has
zero infectious hosts, so its allocation is zero, yet the code still calls
the vector-exposure mutator for it -- the call `(1, 0)` appears in the
log.  The claim asserts the mutator is not invoked for strains whose
allocation is zero. -/
theorem C5_zero_allocation_still_called_cex :
    exposed_vectors envW plW 1 = 0 ∧
      ((1 : ℕ), (0 : ℤ)) ∈ (infect_vectors envW 0 plW).expose_calls := by
  have he : exposed_vectors envW plW 1 = 0 := by
    unfold exposed_vectors
    have h1 : (plW.infectious_people 1 : ℝ) = 0 := by norm_num [plW]
    rw [h1]
    norm_num [truncToInt]
  refine ⟨he, ?_⟩
  rw [infect_vectors_normal envW 0 plW (by decide) (by decide)]
  show ((1 : ℕ), (0 : ℤ)) ∈ plW.expose_calls ++
    (List.range envW.diseases).map (fun d => (d, exposed_vectors envW plW d))
  have hmap : (List.range envW.diseases).map (fun d => (d, exposed_vectors envW plW d)) =
      [(0, exposed_vectors envW plW 0), (1, exposed_vectors envW plW 1)] := rfl
  rw [hmap, he]
  show ((1 : ℕ), (0 : ℤ)) ∈ ([] : List (ℕ × ℤ)) ++
    [(0, exposed_vectors envW plW 0), (1, 0)]
  simp

/-- C8: when a coordinator guard fires (zero transmissibility, closed
location, or closed policy), no vector state, host state, or other
location state is mutated; only the per-day reset happens, and it still
happens (the reset counter for the strain goes up by one and nothing else
changes). -/
theorem C8_guard_frame (env : Env) (day disease_id : ℕ) (pl : Place) (u : ℝ)
    (h : env.transmissibility disease_id = 0 ∨ pl.is_open day = false ∨
      pl.should_be_open day disease_id = false) :
    (spread_infection env day disease_id pl u).is_open = pl.is_open ∧
    (spread_infection env day disease_id pl u).should_be_open = pl.should_be_open ∧
    (spread_infection env day disease_id pl u).susceptible_vectors =
      pl.susceptible_vectors ∧
    (spread_infection env day disease_id pl u).infectious_vectors =
      pl.infectious_vectors ∧
    (spread_infection env day disease_id pl u).infectious_people =
      pl.infectious_people ∧
    (spread_infection env day disease_id pl u).size = pl.size ∧
    (spread_infection env day disease_id pl u).enrollees = pl.enrollees ∧
    (spread_infection env day disease_id pl u).vectors_infected_today =
      pl.vectors_infected_today ∧
    (spread_infection env day disease_id pl u).expose_calls = pl.expose_calls ∧
    (spread_infection env day disease_id pl u).infectious_days = pl.infectious_days ∧
    (spread_infection env day disease_id pl u).visited_log = pl.visited_log ∧
    (spread_infection env day disease_id pl u).infect_vectors_calls =
      pl.infect_vectors_calls ∧
    (spread_infection env day disease_id pl u).reset_calls =
      fun d => if d = disease_id then pl.reset_calls d + 1 else pl.reset_calls d := by
  rw [spread_infection_on_guard env day disease_id pl u h]
  exact ⟨rfl, rfl, rfl, rfl, rfl, rfl, rfl, rfl, rfl, rfl, rfl, rfl, rfl⟩

/-- Witness for C8 at the concrete fixture with zero transmissibility. -/
theorem C8_guard_frame_witness :
    (envW0.transmissibility 0 = 0 ∨ plW.is_open 0 = false ∨
      plW.should_be_open 0 0 = false) ∧
    (spread_infection envW0 0 0 plW 0).enrollees = plW.enrollees ∧
    (spread_infection envW0 0 0 plW 0).reset_calls =
      fun d => if d = 0 then plW.reset_calls d + 1 else plW.reset_calls d := by
  have h : envW0.transmissibility 0 = 0 ∨ plW.is_open 0 = false ∨
      plW.should_be_open 0 0 = false := Or.inl rfl
  have hall := C8_guard_frame envW0 0 0 plW 0 h
  exact ⟨h, hall.2.2.2.2.2.2.1, hall.2.2.2.2.2.2.2.2.2.2.2.2⟩

/-- C10: if `infect_vectors` exits through its zero-susceptible-vectors
guard or its zero-total-infectious-hosts guard, the shared
vectors-infected-today flag stays unset, so a subsequent same-day
`spread_infection` call for another strain enters `infect_vectors` again
(the ghost entry counter goes up once per call, hence by two across the
two calls). -/
theorem C10_vector_guard_leaves_flag_unset (env : Env) (day disease_id disease_id2 : ℕ)
    (pl : Place) (u u2 : ℝ)
    (hflag : pl.vectors_infected_today = false)
    (hguard : pl.susceptible_vectors = 0 ∨ total_infectious_hosts env pl = 0)
    (hg1 : ¬(env.transmissibility disease_id = 0 ∨ pl.is_open day = false ∨
      pl.should_be_open day disease_id = false))
    (hg2 : ¬(env.transmissibility disease_id2 = 0 ∨ pl.is_open day = false ∨
      pl.should_be_open day disease_id2 = false)) :
    (spread_infection env day disease_id pl u).vectors_infected_today = false ∧
    (spread_infection env day disease_id2
        (spread_infection env day disease_id pl u) u2).infect_vectors_calls =
      pl.infect_vectors_calls + 2 := by
  have key : ∀ (did : ℕ) (pl' : Place) (u' : ℝ),
      pl'.vectors_infected_today = false →
      (pl'.susceptible_vectors = 0 ∨ total_infectious_hosts env pl' = 0) →
      ¬(env.transmissibility did = 0 ∨ pl'.is_open day = false ∨
        pl'.should_be_open day did = false) →
      (spread_infection env day did pl' u').vectors_infected_today = false ∧
      (spread_infection env day did pl' u').is_open = pl'.is_open ∧
      (spread_infection env day did pl' u').should_be_open = pl'.should_be_open ∧
      (spread_infection env day did pl' u').susceptible_vectors =
        pl'.susceptible_vectors ∧
      (spread_infection env day did pl' u').infectious_people =
        pl'.infectious_people ∧
      (spread_infection env day did pl' u').infect_vectors_calls =
        pl'.infect_vectors_calls + 1 := by
    intro did pl' u' hf hgd hgg
    rw [spread_infection_vector_guard_shape env day did pl' u' hgg hf hgd]
    refine ⟨?_, ?_, ?_, ?_, ?_, ?_⟩
    · show (infect_hosts env day did _ u').vectors_infected_today = false
      rw [infect_hosts_vectors_infected_today]
      exact hf
    · show (infect_hosts env day did _ u').is_open = pl'.is_open
      rw [infect_hosts_is_open]
      rfl
    · show (infect_hosts env day did _ u').should_be_open = pl'.should_be_open
      rw [infect_hosts_should_be_open]
      rfl
    · show (infect_hosts env day did _ u').susceptible_vectors = pl'.susceptible_vectors
      rw [infect_hosts_susceptible_vectors]
      rfl
    · show (infect_hosts env day did _ u').infectious_people = pl'.infectious_people
      rw [infect_hosts_infectious_people]
      rfl
    · show (infect_hosts env day did _ u').infect_vectors_calls =
        pl'.infect_vectors_calls + 1
      rw [infect_hosts_infect_vectors_calls]
  obtain ⟨f1, f2, f3, f4, f5, f6⟩ := key disease_id pl u hflag hguard hg1
  refine ⟨f1, ?_⟩
  have hguard2 : (spread_infection env day disease_id pl u).susceptible_vectors = 0 ∨
      total_infectious_hosts env (spread_infection env day disease_id pl u) = 0 := by
    rcases hguard with h | h
    · exact Or.inl (by rw [f4, h])
    · exact Or.inr (by rw [total_infectious_hosts_congr env f5, h])
  have hg2' : ¬(env.transmissibility disease_id2 = 0 ∨
      (spread_infection env day disease_id pl u).is_open day = false ∨
      (spread_infection env day disease_id pl u).should_be_open day disease_id2 =
        false) := by
    rw [f2, f3]
    exact hg2
  obtain ⟨g1, g2, g3, g4, g5, g6⟩ := key disease_id2 _ u2 f1 hguard2 hg2'
  rw [g6, f6]

/-- Witness for C10 at the concrete fixture with no susceptible vectors. -/
theorem C10_vector_guard_leaves_flag_unset_witness :
    plW0.vectors_infected_today = false ∧
    (plW0.susceptible_vectors = 0 ∨ total_infectious_hosts envW plW0 = 0) ∧
    (spread_infection envW 0 0 plW0 0).vectors_infected_today = false ∧
    (spread_infection envW 0 1 (spread_infection envW 0 0 plW0 0) 0).infect_vectors_calls =
      plW0.infect_vectors_calls + 2 := by
  have hflag : plW0.vectors_infected_today = false := rfl
  have hguard : plW0.susceptible_vectors = 0 ∨ total_infectious_hosts envW plW0 = 0 :=
    Or.inl rfl
  have hg1 : ¬(envW.transmissibility 0 = 0 ∨ plW0.is_open 0 = false ∨
      plW0.should_be_open 0 0 = false) := by
    intro h
    rcases h with h | h | h
    · exact one_ne_zero h
    · exact Bool.noConfusion h
    · exact Bool.noConfusion h
  have hg2 : ¬(envW.transmissibility 1 = 0 ∨ plW0.is_open 0 = false ∨
      plW0.should_be_open 0 1 = false) := by
    intro h
    rcases h with h | h | h
    · exact one_ne_zero h
    · exact Bool.noConfusion h
    · exact Bool.noConfusion h
  have hmain := C10_vector_guard_leaves_flag_unset envW 0 0 1 plW0 0 0 hflag hguard hg1 hg2
  exact ⟨hflag, hguard, hmain.1, hmain.2⟩

lemma range_getD_take (N T : ℕ) (h : N ≤ T) :
    (List.range N).map (fun j => (List.range T).getD j 0) = (List.range T).take N := by
  have h1 : (List.range N).map (fun j => (List.range T).getD j 0) = List.range N := by
    have hpt : ∀ j ∈ List.range N, (List.range T).getD j 0 = j := by
      intro j hj
      have hjT : j < T := lt_of_lt_of_le (List.mem_range.mp hj) h
      rw [List.getD_eq_getElem?_getD, List.getElem?_range hjT]
      rfl
    calc (List.range N).map (fun j => (List.range T).getD j 0)
        = (List.range N).map (fun j => j) := List.map_congr_left hpt
      _ = List.range N := List.map_id' (List.range N)
  rw [h1, List.take_range, Nat.min_eq_left h]

/-- C4: on the normal path, the attempt loop of `infect_hosts` visits
exactly the first `N = max_exposed_hosts` entries of the index sequence it
reads (when `N` does not exceed the enrolled-host count): the visited log
grows by precisely that prefix, of length exactly `N`, independently of
presence or susceptibility outcomes (which only decide whether a visit
produces an infection, never whether a slot is consumed). -/
theorem C4_loop_visits_first_N (env : Env) (day disease_id : ℕ) (pl : Place) (u : ℝ)
    (h1 : pl.enrollees.length ≠ 0) (h2 : pl.infectious_vectors disease_id ≠ 0)
    (h3 : env.params.transmission_efficiency ≠ 0)
    (hN : (max_exposed_hosts env disease_id pl u).toNat ≤ pl.enrollees.length) :
    (infect_hosts env day disease_id pl u).visited_log =
      pl.visited_log ++ (List.range pl.enrollees.length).take
        (max_exposed_hosts env disease_id pl u).toNat ∧
    ((List.range pl.enrollees.length).take
        (max_exposed_hosts env disease_id pl u).toNat).length =
      (max_exposed_hosts env disease_id pl u).toNat := by
  constructor
  · rw [infect_hosts_normal env day disease_id pl u h1 h2 h3]
    show pl.visited_log ++ _ = pl.visited_log ++ _
    rw [range_getD_take _ _ hN]
  · rw [List.length_take, List.length_range, Nat.min_eq_left hN]

/-! ### Evaluating the fixture run of `infect_hosts` -/

lemma host_prob_W : host_prob_infection envW 0 plW = 1 := by
  unfold host_prob_infection probFormula
  have hexp : envW.params.bite_rate * (plW.infectious_vectors 0 : ℝ) /
      (plW.enrollees.length : ℝ) = 1 := by
    norm_num [envW, paramsW, plW, personW]
  rw [hexp]
  have heff : (1 : ℝ) - envW.params.transmission_efficiency = 0 := by
    norm_num [envW, paramsW]
  rw [heff, Real.rpow_one, sub_zero]

lemma expected_W : expected_infections envW 0 plW = 2 := by
  unfold expected_infections
  rw [host_prob_W]
  norm_num [plW, personW]

lemma max_exposed_W : max_exposed_hosts envW 0 plW 0 = 2 := by
  have hfloor : ⌊(2 : ℝ)⌋ = 2 := by
    rw [show (2 : ℝ) = ((2 : ℤ) : ℝ) by norm_num]
    exact Int.floor_intCast 2
  simp only [max_exposed_hosts]
  rw [expected_W, hfloor]
  norm_num

/-- Witness for C4 at the concrete fixture. -/
theorem C4_loop_visits_first_N_witness :
    plW.enrollees.length ≠ 0 ∧ plW.infectious_vectors 0 ≠ 0 ∧
    envW.params.transmission_efficiency ≠ 0 ∧
    (max_exposed_hosts envW 0 plW 0).toNat ≤ plW.enrollees.length ∧
    ((infect_hosts envW 0 0 plW 0).visited_log =
      plW.visited_log ++ (List.range plW.enrollees.length).take
        (max_exposed_hosts envW 0 plW 0).toNat ∧
    ((List.range plW.enrollees.length).take
        (max_exposed_hosts envW 0 plW 0).toNat).length =
      (max_exposed_hosts envW 0 plW 0).toNat) := by
  have hN : (max_exposed_hosts envW 0 plW 0).toNat ≤ plW.enrollees.length := by
    rw [max_exposed_W]
    decide
  exact ⟨by decide, by decide, one_ne_zero, hN,
    C4_loop_visits_first_N envW 0 0 plW 0 (by decide) (by decide) one_ne_zero hN⟩

/-- C2 is false of the code (see the NOTE at `infect_hosts`): because
`shuffle_index` still has size zero when `FYShuffle` runs, no shuffling
and no random draws happen, and the visit order is the identity.  At the
concrete fixture (two enrolled hosts, target count 2) the visited order is
`[0, 1]`, deterministically -- not a uniformly random permutation. -/
theorem C2_no_shuffle_identity_order_cex :
    (infect_hosts envW 0 0 plW 0).visited_log = [0, 1] := by
  rw [infect_hosts_normal envW 0 0 plW 0 (by decide) (by decide) one_ne_zero,
    max_exposed_W]
  rfl

/-! ### The cross-immunity invariant of the host-infection loop -/

lemma become_unsusceptible_susceptible (q : Person) (d y : ℕ) :
    (become_unsusceptible q d).susceptible y =
      if y = d then false else q.susceptible y := rfl

lemma cross_immunize_susceptible (disease_id : ℕ) (p : Person) (dt y : ℕ)
    (hy : y < dt) (hne : y ≠ disease_id) :
    (cross_immunize disease_id p dt).susceptible y = false := by
  induction dt with
  | zero => omega
  | succ d ih =>
      simp only [cross_immunize]
      by_cases hd : d = disease_id
      · rw [if_pos hd]
        exact ih (by omega)
      · rw [if_neg hd, become_unsusceptible_susceptible]
        by_cases hyd : y = d
        · rw [if_pos hyd]
        · rw [if_neg hyd]
          exact ih (by omega)

/-- One loop iteration either leaves slot `j` unchanged or replaces it with
the freshly exposed-and-immunized person at the visited index. -/
lemma process_host_getElem (dt disease_id : ℕ) (persons : List Person) (idx j : ℕ) :
    (process_host dt disease_id persons idx)[j]? = persons[j]? ∨
      ∃ pers, persons[idx]? = some pers ∧ j = idx ∧
        (process_host dt disease_id persons idx)[j]? =
          some (cross_immunize disease_id (become_exposed pers disease_id) dt) := by
  unfold process_host
  cases hx : persons[idx]? with
  | none => exact Or.inl rfl
  | some pers =>
      dsimp only
      by_cases hpr : pers.present = false
      · rw [if_pos hpr]
        exact Or.inl rfl
      · rw [if_neg hpr]
        by_cases hsus : pers.susceptible disease_id
        · rw [if_pos hsus]
          by_cases hj : j = idx
          · subst hj
            have hlt : j < persons.length := by
              by_contra hge
              rw [List.getElem?_eq_none (by omega)] at hx
              cases hx
            exact Or.inr ⟨pers, rfl, rfl, List.getElem?_set_eq_of_lt _ hlt⟩
          · exact Or.inl (List.getElem?_set_ne (fun h => hj h.symm))
        · rw [if_neg hsus]
          exact Or.inl rfl

/-- The loop invariant: a person holding an exposure to `disease_id` either
held it before the loop started, or has been made non-susceptible to every
other tracked strain. -/
lemma infect_loop_invariant (dt disease_id : ℕ) (idxs : List ℕ)
    (persons0 persons : List Person)
    (hinv : ∀ (j : ℕ) (p : Person), persons[j]? = some p → disease_id ∈ p.exposures →
      (∃ q : Person, persons0[j]? = some q ∧ disease_id ∈ q.exposures) ∨
        (∀ y, y < dt → y ≠ disease_id → p.susceptible y = false)) :
    ∀ (j : ℕ) (p : Person), (infect_loop dt disease_id persons idxs)[j]? = some p →
      disease_id ∈ p.exposures →
      (∃ q : Person, persons0[j]? = some q ∧ disease_id ∈ q.exposures) ∨
        (∀ y, y < dt → y ≠ disease_id → p.susceptible y = false) := by
  induction idxs generalizing persons with
  | nil => exact hinv
  | cons idx rest ih =>
      apply ih
      intro j p hj hmem
      rcases process_host_getElem dt disease_id persons idx j with h | ⟨pers, hx, hji, h⟩
      · exact hinv j p (h ▸ hj) hmem
      · rw [h] at hj
        injection hj with hj
        subst hj
        right
        intro y hy hne
        exact cross_immunize_susceptible disease_id _ dt y hy hne

/-- C9: every host that `infect_hosts` newly exposes to strain
`disease_id` is made non-susceptible to every other tracked strain within
the same call: if slot `j` did not carry the exposure before the call and
does after it, then after the call the host in slot `j` has
`susceptible y = false` for every tracked `y ≠ disease_id`. -/
theorem C9_cross_strain_immunity (env : Env) (day disease_id : ℕ) (pl : Place) (u : ℝ)
    (j : ℕ)
    (hnew : disease_id ∉ (pl.enrollees.getD j noPerson).exposures)
    (hexp : disease_id ∈
      ((infect_hosts env day disease_id pl u).enrollees.getD j noPerson).exposures) :
    ∀ y, y < env.disease_types → y ≠ disease_id →
      ((infect_hosts env day disease_id pl u).enrollees.getD j noPerson).susceptible y =
        false := by
  intro y hy hne
  rw [List.getD_eq_getElem?_getD] at hexp ⊢
  cases hres : (infect_hosts env day disease_id pl u).enrollees[j]? with
  | none =>
      rw [hres] at hexp
      exact absurd hexp (List.not_mem_nil _)
  | some p1 =>
      show p1.susceptible y = false
      rw [hres] at hexp
      have hexp1 : disease_id ∈ p1.exposures := hexp
      rcases infect_hosts_cases env day disease_id pl u with hcase | ⟨visit, hcase⟩
      · rw [hcase] at hres
        rw [List.getD_eq_getElem?_getD, hres] at hnew
        exact absurd hexp1 hnew
      · rw [hcase] at hres
        have hstart : ∀ (j' : ℕ) (p : Person),
            pl.enrollees[j']? = some p → disease_id ∈ p.exposures →
            (∃ q : Person, pl.enrollees[j']? = some q ∧ disease_id ∈ q.exposures) ∨
              (∀ z, z < env.disease_types → z ≠ disease_id →
                p.susceptible z = false) :=
          fun j' p h hm => Or.inl ⟨p, h, hm⟩
        rcases infect_loop_invariant env.disease_types disease_id visit
            pl.enrollees pl.enrollees hstart j p1 hres hexp1 with ⟨q, hq, hqm⟩ | himm
        · rw [List.getD_eq_getElem?_getD, hq] at hnew
          exact absurd hqm hnew
        · exact himm y hy hne

lemma infect_hosts_W_enrollees :
    (infect_hosts envW 0 0 plW 0).enrollees = infect_loop 2 0 plW.enrollees [0, 1] := by
  rw [infect_hosts_normal envW 0 0 plW 0 (by decide) (by decide) one_ne_zero,
    max_exposed_W]
  rfl

/-- Witness for C9 at the concrete fixture: host 0 is newly exposed to
strain 0 and comes out non-susceptible to every other tracked strain. -/
theorem C9_cross_strain_immunity_witness :
    (0 ∉ (plW.enrollees.getD 0 noPerson).exposures) ∧
    (0 ∈ ((infect_hosts envW 0 0 plW 0).enrollees.getD 0 noPerson).exposures) ∧
    (∀ y, y < envW.disease_types → y ≠ 0 →
      ((infect_hosts envW 0 0 plW 0).enrollees.getD 0 noPerson).susceptible y =
        false) := by
  have hexp : 0 ∈ ((infect_hosts envW 0 0 plW 0).enrollees.getD 0 noPerson).exposures := by
    rw [infect_hosts_W_enrollees]
    decide
  have hnew : 0 ∉ (plW.enrollees.getD 0 noPerson).exposures := by decide
  exact ⟨hnew, hexp, C9_cross_strain_immunity envW 0 0 plW 0 0 hnew hexp⟩

/-- Witness for C7 at `efficiency = 0`, `bite_rate = 0`, `r = 0`. -/
theorem C7_prob_in_unit_interval_witness :
    (0 : ℝ) ≤ 0 ∧ (0 : ℝ) ≤ 1 ∧
      (0 ≤ probFormula 0 (0 * 0) ∧ probFormula 0 (0 * 0) ≤ 1) :=
  ⟨le_refl 0, zero_le_one,
    C7_prob_in_unit_interval 0 0 0 (le_refl 0) (le_refl 0) zero_le_one (le_refl 0)⟩

end VectorTransmission
